import Mathlib

/-!
Verification of the session completion engine of the vManager GitHub action
(`vmanager.py`): the polling wait loop (`SessionWaiter.wait`), the per-state
resolver (`SessionWaiter._get_resolver`), the two-consecutive-polls completion
confirmation (the `completed_last_check` / `final_state` flags), the statistics
aggregator (`SessionWaiter.get_aggregated_stats` and `_safe_int`), and the
JUnit report generator (`generate_junit_xml`, `_xml_safe`,
`_build_extra_attr_text`).

The embedding is shallow: Python dict values that flow through the code are
modelled by `Val` (the code only ever meets integers, strings and `None` on
these paths); a missing dict key is `Option.none`; the unbounded `while True`
loop is driven by a finite script of poll sweeps, each carrying the elapsed
wall-clock time observed at the top of that iteration and the fetch outcome
for every session id.
-/

namespace VManager

/-- A JSON-ish field value as it reaches the embedded code paths: an integer,
a string, or `None` (JSON null). -/
inductive Val where
  | int (n : Int)
  | str (s : String)
  | null
deriving DecidableEq

/-- Python `v == n` for an int literal `n`: only an int compares equal. -/
def Val.eqInt : Val → Int → Bool
  | .int m, n => m == n
  | _, _ => false

/-- Python `v == s` for a string literal `s`: only a string compares equal. -/
def Val.eqStr : Val → String → Bool
  | .str t, s => t == s
  | _, _ => false

/-- Python whitespace as far as `str.strip` / `int` are concerned
(ASCII space, tab, newline, carriage return, vertical tab, form feed). -/
def pyIsSpace (c : Char) : Bool :=
  c == ' ' || c == '\t' || c == '\n' || c == '\r' || c.toNat == 11 || c.toNat == 12

/-- Parse a non-empty all-digit character list as a natural number. -/
def parseDigits (cs : List Char) : Option Nat :=
  match cs with
  | [] => Option.none
  | _ => cs.foldl
      (fun acc c =>
        match acc with
        | Option.none => Option.none
        | some n => if c.isDigit then some (n * 10 + (c.toNat - 48)) else Option.none)
      (some 0)

/-- CPython `int(s)` on a string: strip whitespace, optional sign, decimal
digits; anything else raises `ValueError` (here: `Option.none`).
Underscore digit grouping, accepted by CPython, is not modelled. -/
def pyIntOfString (s : String) : Option Int :=
  let cs := ((s.toList.dropWhile pyIsSpace).reverse.dropWhile pyIsSpace).reverse
  match cs with
  | '-' :: rest => (parseDigits rest).map (fun n => -(n : Int))
  | '+' :: rest => (parseDigits rest).map (fun n => (n : Int))
  | rest => (parseDigits rest).map (fun n => (n : Int))

/-- CPython `int(v)`: ints pass through, strings are parsed, `None` raises
`TypeError` (here: `Option.none`). -/
def pyInt : Val → Option Int
  | .int n => some n
  | .str s => pyIntOfString s
  | .null => Option.none

/-- Embeds `_safe_int`: `int(v)` with `ValueError` / `TypeError` degraded to `0`. -/
def _safe_int (v : Val) : Int := (pyInt v).getD 0

/-- The projection of a session record returned by
`VAPIClient.get_session_status` (the fields selected in its projection).
A field that the server did not send is `Option.none`. -/
structure SessionInfo where
  session_status : Option Val := Option.none
  name : Option Val := Option.none
  running : Option Val := Option.none
  waiting : Option Val := Option.none
  total_runs_in_session : Option Val := Option.none
  passed_runs : Option Val := Option.none
  failed_runs : Option Val := Option.none
  other_runs : Option Val := Option.none
  owner : Option Val := Option.none
deriving DecidableEq

/-- The configuration fields of `Config` consumed by `SessionWaiter`.
Defaults mirror the action input defaults (`failed-resolver` = `fail`, etc.;
`session_timeout` is in seconds, `30 * 60` by default). -/
structure Config where
  inaccessible_resolver : String := "fail"
  stopped_resolver : String := "fail"
  failed_resolver : String := "fail"
  done_resolver : String := "continue"
  suspended_resolver : String := "continue"
  session_timeout : Int := 1800

/-- Embeds `SessionWaiter._get_resolver`: the per-state resolver table.
`completed` is hard-wired to `continue`; unmapped states (and non-string
status values, which never match a string dict key) resolve to `ignore`. -/
def _get_resolver (cfg : Config) (state : Val) : String :=
  match state with
  | .str s =>
    if s == "inaccessible" then cfg.inaccessible_resolver
    else if s == "stopped" then cfg.stopped_resolver
    else if s == "failed" then cfg.failed_resolver
    else if s == "done" then cfg.done_resolver
    else if s == "suspended" then cfg.suspended_resolver
    else if s == "completed" then "continue"
    else "ignore"
  | _ => "ignore"

/-- The mutable state of one `SessionWaiter` instance together with the
`aggregated` dict that is local to one `wait` invocation: the fixed session
id list, the `remaining` worklist, the `session_names`,
`completed_last_check` and `final_state` dicts (missing keys read as falsy),
and the `aggregated` snapshot map. -/
structure WaiterState where
  session_ids : List String
  remaining : List String
  session_names : String → Option Val
  completed_last_check : String → Bool
  final_state : String → Bool
  aggregated : String → Option SessionInfo

/-- Point update of a boolean-valued dict. -/
def updBool (f : String → Bool) (k : String) (b : Bool) : String → Bool :=
  fun x => if x == k then b else f x

/-- Point update of a `Val`-valued dict. -/
def updVal (f : String → Option Val) (k : String) (v : Val) : String → Option Val :=
  fun x => if x == k then some v else f x

/-- Point update of the `aggregated` snapshot dict. -/
def updInfo (f : String → Option SessionInfo) (k : String) (v : SessionInfo) :
    String → Option SessionInfo :=
  fun x => if x == k then some v else f x

/-- Embeds `SessionWaiter._check_all_done`: if the session's `final_state` flag is
set, drop it from `remaining` (guarded `list.remove`); report whether
`remaining` is now empty. -/
def _check_all_done (st : WaiterState) (sid : String) : WaiterState × Bool :=
  let st' := if st.final_state sid then { st with remaining := st.remaining.erase sid } else st
  (st', st'.remaining.isEmpty)

/-- Outcome of one `get_session_status` call as seen by the `wait` loop:
a `VAPIError` (HTTP-level error: warn and move to the next session), any
other exception (connection error: abandon the rest of the sweep), or a
session record — `ok Option.none` is the empty dict returned when the session
no longer exists. -/
inductive FetchResult where
  | vapiError
  | connError
  | ok (info : Option SessionInfo)

/-- What one sweep decided. `nodecision` is a sweep that ran to the end of the
session list without setting either flag; `aborted` is a sweep cut short by a
connection error — the loop treats both identically (poll again). -/
inductive Decision where
  | nodecision
  | aborted
  | buildFailed
  | buildSuccess
deriving DecidableEq

/-- The resolver block at the bottom of the per-session body of `wait`:
`completed` (and any `continue` resolution) succeeds once every session is
confirmed done, a `fail` resolution fails the build, `ignore` keeps polling. -/
def resolverPhase (cfg : Config) (st : WaiterState) (sid : String) (state : Val) :
    WaiterState × Decision :=
  let resolver := _get_resolver cfg state
  if state.eqStr "completed" then
    let p := _check_all_done st sid
    if p.2 then (p.1, Decision.buildSuccess) else (p.1, Decision.nodecision)
  else if resolver == "fail" then (st, Decision.buildFailed)
  else if resolver == "continue" then
    let p := _check_all_done st sid
    if p.2 then (p.1, Decision.buildSuccess) else (p.1, Decision.nodecision)
  else (st, Decision.nodecision)

/-- The per-session body of the sweep in `SessionWaiter.wait`, for a session
whose status record was fetched successfully: record name and snapshot, run
the rerun-detection (two consecutive `running == 0 and waiting == 0` checks,
with the special `failed`-but-all-done success path), then the resolver. -/
def sessionStep (cfg : Config) (st : WaiterState) (sid : String) (info : SessionInfo) :
    WaiterState × Decision :=
  let state := info.session_status.getD (Val.str "unknown")
  let name := info.name.getD (Val.str sid)
  let running := info.running.getD (Val.int 0)
  let waiting := info.waiting.getD (Val.int 0)
  let st := { st with
    session_names := updVal st.session_names sid name
    aggregated := updInfo st.aggregated sid info }
  if running.eqInt 0 && waiting.eqInt 0 then
    if st.completed_last_check sid then
      let st := { st with final_state := updBool st.final_state sid true }
      if state.eqStr "failed" then
        let p := _check_all_done st sid
        if p.2 then (p.1, Decision.buildSuccess)
        else resolverPhase cfg p.1 sid state
      else resolverPhase cfg st sid state
    else
      let st := { st with
        completed_last_check := updBool st.completed_last_check sid true
        final_state := updBool st.final_state sid false }
      resolverPhase cfg st sid state
  else
    let st := { st with
      completed_last_check := updBool st.completed_last_check sid false
      final_state := updBool st.final_state sid false }
    resolverPhase cfg st sid state

/-- One sweep of the `wait` loop: iterate the session ids in order; a
`VAPIError` skips just that session, a connection error abandons the rest of
the sweep, an empty record fails the build on the spot, and otherwise the
per-session body runs and may halt the sweep with a decision. -/
def processSweep (cfg : Config) (fetch : String → FetchResult) :
    WaiterState → List String → WaiterState × Decision
  | st, [] => (st, Decision.nodecision)
  | st, sid :: rest =>
    match fetch sid with
    | FetchResult.vapiError => processSweep cfg fetch st rest
    | FetchResult.connError => (st, Decision.aborted)
    | FetchResult.ok Option.none => (st, Decision.buildFailed)
    | FetchResult.ok (some info) =>
      match sessionStep cfg st sid info with
      | (st', Decision.nodecision) => processSweep cfg fetch st' rest
      | (st', d) => (st', d)

/-- The environment of one iteration of the `while True` loop: the elapsed
wall-clock seconds measured at the top of the iteration, and the outcome of
each session's status fetch during the sweep. -/
structure SweepInput where
  elapsed : Int
  fetch : String → FetchResult

/-- How a `wait` invocation ends: the timeout `fail(...)` (process exit, a
failure), or `return success, aggregated` with the final waiter state. -/
inductive WaitResult where
  | timedOut
  | finished (success : Bool) (st : WaiterState)

/-- The `while True` loop of `SessionWaiter.wait`, driven by a finite script
of sweeps; `Option.none` means the script ran out with the loop still
polling.  Each iteration first checks the timeout
(`session_timeout > 0 and elapsed > session_timeout`), then sleeps and runs
the sweep. -/
def waitLoop (cfg : Config) : WaiterState → List SweepInput → Option WaitResult
  | _, [] => Option.none
  | st, sw :: rest =>
    if 0 < cfg.session_timeout ∧ cfg.session_timeout < sw.elapsed then
      some WaitResult.timedOut
    else
      match processSweep cfg sw.fetch st st.session_ids with
      | (st', Decision.buildFailed) => some (WaitResult.finished false st')
      | (st', Decision.buildSuccess) => some (WaitResult.finished true st')
      | (st', _) => waitLoop cfg st' rest

/-- The state built by `SessionWaiter.__init__`: all flags unset, `remaining`
a copy of the session id list, nothing aggregated yet. -/
def initState (session_ids : List String) : WaiterState :=
  { session_ids := session_ids
    remaining := session_ids
    session_names := fun _ => Option.none
    completed_last_check := fun _ => false
    final_state := fun _ => false
    aggregated := fun _ => Option.none }

/-- Embeds `SessionWaiter.wait` from a fresh waiter. -/
def wait (cfg : Config) (session_ids : List String) (script : List SweepInput) :
    Option WaitResult :=
  waitLoop cfg (initState session_ids) script

/-- The `success` component of a finished wait (`Option.none` while the loop
is still polling or after the timeout exit). -/
def waitSuccess : Option WaitResult → Option Bool
  | some (WaitResult.finished b _) => some b
  | _ => Option.none

/-- Whether the special `failed`-but-all-done branch of `wait` fires for this
observation: both counts zero, the previous poll already saw zero/zero, the
state label is `failed`, and dropping this session empties `remaining`. -/
def specialCaseFires (st : WaiterState) (sid : String) (info : SessionInfo) : Bool :=
  (info.running.getD (Val.int 0)).eqInt 0 &&
  (info.waiting.getD (Val.int 0)).eqInt 0 &&
  st.completed_last_check sid &&
  (info.session_status.getD (Val.str "unknown")).eqStr "failed" &&
  (st.remaining.erase sid).isEmpty

/-- The completion-confirmation flags of a waiter, in isolation: the
`completed_last_check` (provisional) and `final_state` (confirmed) dicts of
`SessionWaiter`. -/
structure TrackerState where
  completed_last_check : String → Bool
  final_state : String → Bool

/-- The rerun-detection block of `SessionWaiter.wait` as a tracker step:
feed one `(running, waiting)` observation for `sid`, get the new flags and
whether this observation confirms the session as done (the
`completed_last_check` flag was already set and both counts are zero). -/
def observe (st : TrackerState) (sid : String) (running waiting : Val) :
    TrackerState × Bool :=
  if running.eqInt 0 && waiting.eqInt 0 then
    if st.completed_last_check sid then
      ({ st with final_state := updBool st.final_state sid true }, true)
    else
      ({ completed_last_check := updBool st.completed_last_check sid true
         final_state := updBool st.final_state sid false }, false)
  else
    ({ completed_last_check := updBool st.completed_last_check sid false
       final_state := updBool st.final_state sid false }, false)

/-- Run the tracker over a sequence of observations for one session id,
collecting the per-observation confirmation results. -/
def observeSeq (st : TrackerState) (sid : String) : List (Val × Val) → List Bool
  | [] => []
  | (r, w) :: rest =>
    let p := observe st sid r w
    p.2 :: observeSeq p.1 sid rest

/-- The tracker of a fresh `SessionWaiter`: both dicts empty. -/
def initTracker : TrackerState :=
  { completed_last_check := fun _ => false, final_state := fun _ => false }

/-- Whether an observation reports zero running and zero waiting runs. -/
def isZeroObs (p : Val × Val) : Bool := p.1.eqInt 0 && p.2.eqInt 0

/-- The totals dict of `SessionWaiter.get_aggregated_stats`. -/
structure AggregatedStats where
  total_runs : Int
  passed : Int
  failed : Int
  running : Int
  waiting : Int
  other : Int
deriving DecidableEq

/-- The loop body of `get_aggregated_stats`: add one session record's counts
(each one through `_safe_int`, with `0` for a missing field) to the totals. -/
def addInfo (t : AggregatedStats) (info : SessionInfo) : AggregatedStats :=
  { total_runs := t.total_runs + _safe_int (info.total_runs_in_session.getD (Val.int 0))
    passed := t.passed + _safe_int (info.passed_runs.getD (Val.int 0))
    failed := t.failed + _safe_int (info.failed_runs.getD (Val.int 0))
    running := t.running + _safe_int (info.running.getD (Val.int 0))
    waiting := t.waiting + _safe_int (info.waiting.getD (Val.int 0))
    other := t.other + _safe_int (info.other_runs.getD (Val.int 0)) }

/-- Embeds `SessionWaiter.get_aggregated_stats` over the values of the `aggregated`
dict (a dict iterates its values in insertion order, so the input is a list of
session records). -/
def get_aggregated_stats (infos : List SessionInfo) : AggregatedStats :=
  infos.foldl addInfo ⟨0, 0, 0, 0, 0, 0⟩

/-- A run record as fetched by `VAPIClient.get_runs`: the selected fields,
plus any extra attributes requested for the report.  A missing key is
`Option.none`. -/
structure RunRecord where
  status : Option Val := Option.none
  test_group : Option Val := Option.none
  test_name : Option Val := Option.none
  computed_seed : Option Val := Option.none
  duration : Option Val := Option.none
  first_failure_name : Option Val := Option.none
  first_failure_description : Option Val := Option.none
  id : Option Val := Option.none
  extra : List (String × Val) := []

/-- Python `run.get(key)` on a run record: the named field if the key is one
of the selected attributes, otherwise a lookup among the extra attributes. -/
def RunRecord.get (r : RunRecord) (key : String) : Option Val :=
  if key == "status" then r.status
  else if key == "test_group" then r.test_group
  else if key == "test_name" then r.test_name
  else if key == "computed_seed" then r.computed_seed
  else if key == "duration" then r.duration
  else if key == "first_failure_name" then r.first_failure_name
  else if key == "first_failure_description" then r.first_failure_description
  else if key == "id" then r.id
  else (r.extra.find? (fun p => p.1 == key)).map (fun p => p.2)

/-- Python `str(v)` on a field value. -/
def Val.pyStr : Val → String
  | .int n => toString n
  | .str s => s
  | .null => "None"

/-- One character under `xml.sax.saxutils.escape` with the quote and
apostrophe entities of `_xml_safe` (character codes 34 and 39). -/
def xmlEscapeChar (c : Char) : String :=
  if c == '&' then "&amp;"
  else if c == '<' then "&lt;"
  else if c == '>' then "&gt;"
  else if c.toNat == 34 then "&quot;"
  else if c.toNat == 39 then "&apos;"
  else String.singleton c

/-- Character-list worker of the escape. -/
def xmlEscapeList : List Char → String
  | [] => ""
  | c :: cs => xmlEscapeChar c ++ xmlEscapeList cs

/-- Embeds `xml.sax.saxutils.escape` with the extra quote/apostrophe entities. -/
def xmlEscapeStr (s : String) : String :=
  xmlEscapeList s.toList

/-- Embeds `_xml_safe`: `None` renders as `NA`, anything else is stringified and
escaped. -/
def _xml_safe : Val → String
  | Val.null => "NA"
  | v => xmlEscapeStr v.pyStr

/-- The `duration` handling of `generate_junit_xml`: `run.get("duration", 0)`
followed by `int(...)` with failures degraded to `0`. -/
def durationOf (run : RunRecord) : Int :=
  (pyInt ((run.get "duration").getD (Val.int 0))).getD 0

/-- The built-in field names that `_build_extra_attr_text` refuses to repeat. -/
def builtInAttrs : List String :=
  ["first_failure_name", "first_failure_description", "computed_seed",
   "test_group", "test_name"]

/-- Python `s.strip()` (whitespace strip at both ends). -/
def pyStrip (s : String) : String :=
  String.mk (((s.toList.dropWhile pyIsSpace).reverse.dropWhile pyIsSpace).reverse)

/-- Predicate `leadsWith pat l`: does `l` start with `pat`? -/
def leadsWith : List Char → List Char → Bool
  | [], _ => true
  | _ :: _, [] => false
  | a :: as, b :: bs => a == b && leadsWith as bs

/-- Fuelled left-to-right non-overlapping replacement on character lists. -/
def replaceFrom : Nat → List Char → List Char → List Char → List Char
  | 0, _, _, s => s
  | _ + 1, _, _, [] => []
  | n + 1, pat, rep, c :: rest =>
    if leadsWith pat (c :: rest) then
      rep ++ replaceFrom n pat rep (List.drop pat.length (c :: rest))
    else c :: replaceFrom n pat rep rest

/-- Python `s.replace(pat, rep)` for a non-empty pattern. -/
def pyReplace (s pat rep : String) : String :=
  String.mk (replaceFrom (s.toList.length + 1) pat.toList rep.toList s.toList)

/-- The string-value preprocessing of `_build_extra_attr_text`: only string
values have their `<__SEPARATOR__>` markers turned into indented
continuation lines. -/
def sepRender : Val → Val
  | Val.str s => Val.str (pyReplace s "<__SEPARATOR__>" "\n    ")
  | v => v

/-- Embeds `labels.get(attr, attr)`: the display label of an attribute, defaulting
to the attribute name itself. -/
def labelFor (labels : List (String × String)) (attr : String) : String :=
  (((labels.find? (fun p => p.1 == attr)).map (fun p => p.2))).getD attr

/-- One loop iteration of `_build_extra_attr_text`: strip the attribute name;
drop it when empty, containing a space, or a built-in field; otherwise render
`label:` followed by the indented, separator-expanded, escaped value
(`NA` when the run lacks the attribute). -/
def extraAttrPart (run : RunRecord) (labels : List (String × String)) (attr : String) :
    Option String :=
  let a := pyStrip attr
  if a.toList.isEmpty || a.toList.contains ' ' || builtInAttrs.contains a then Option.none
  else
    some (labelFor labels a ++ ":\n    " ++
      _xml_safe (sepRender ((run.get a).getD (Val.str "NA"))))

/-- Embeds `_build_extra_attr_text`: empty attribute list short-circuits to `""`;
otherwise the surviving parts joined with newlines. -/
def _build_extra_attr_text (run : RunRecord) (attrs : List String)
    (labels : List (String × String)) : String :=
  if attrs.isEmpty then ""
  else String.intercalate "\n" (attrs.filterMap (extraAttrPart run labels))

/-- Embeds `run.get("status", "NA")`. -/
def statusOf (run : RunRecord) : Val := (run.get "status").getD (Val.str "NA")

/-- The default `first_failure_description` used for failed runs. -/
def defaultFailureDesc : String :=
  "Run is in state running, other or waiting. " ++
  "Reason for run to mark as failed is because session changed status."

/-- The `<testcase classname="..." name="..." time="...">` attribute part of
the per-run element, without the closing `>` or `/>`. -/
def testcaseOpen (test_group full_name : String) (duration : Int) : String :=
  "    <testcase classname=\"" ++ test_group ++ "\" name=\"" ++ full_name ++
    "\" time=\"" ++ toString duration ++ "\""

/-- The `<failure message="..." type="...">` head of a failed run's body. -/
def failureLineHead (error_name : String) : String :=
  "      <failure message=\"" ++ error_name ++ "\" type=\"" ++ error_name ++ "\">"

/-- The per-run body of `generate_junit_xml`: the XML lines emitted for one
run record, classified by its status. -/
def runLines (extra_attrs : List String) (attr_labels : List (String × String))
    (no_append_seed : Bool) (run : RunRecord) : List String :=
  let status := statusOf run
  let test_group := _xml_safe ((run.get "test_group").getD (Val.str "NA"))
  let test_name := _xml_safe ((run.get "test_name").getD (Val.str "NA"))
  let seed := _xml_safe ((run.get "computed_seed").getD (Val.str "NA"))
  let duration := durationOf run
  let seed_suffix := if no_append_seed then "" else " : Seed-" ++ seed
  let full_name := test_name ++ seed_suffix
  if status.eqStr "failed" then
    let error_name := _xml_safe ((run.get "first_failure_name").getD (Val.str "RUN_STILL_IN_PROGRESS"))
    let error_desc := _xml_safe ((run.get "first_failure_description").getD (Val.str defaultFailureDesc))
    let extra := _build_extra_attr_text run extra_attrs attr_labels
    [testcaseOpen test_group full_name duration ++ ">",
     failureLineHead error_name ++
       ("First Error Description: \n" ++ error_desc ++ "\n" ++
        "Computed Seed: \n" ++ seed ++ "\n" ++ extra ++ "</failure>"),
     "    </testcase>"]
  else if status.eqStr "stopped" || status.eqStr "running" ||
      status.eqStr "other" || status.eqStr "waiting" then
    [testcaseOpen test_group full_name duration ++ ">",
     "      <skipped />",
     "    </testcase>"]
  else
    [testcaseOpen test_group full_name duration ++ "/>"]

/-- Embeds `generate_junit_xml` up to the file write: the lines of the produced
document, or `Option.none` when the run list is empty (the function logs and
returns without producing a report). -/
def generate_junit_xml (runs : List RunRecord) (extra_attrs : List String)
    (attr_labels : List (String × String)) (no_append_seed : Bool) :
    Option (List String) :=
  if runs.isEmpty then Option.none
  else some
    (["<?xml version=\"1.0\" encoding=\"UTF-8\"?>",
      "<testsuite tests=\"" ++ toString runs.length ++ "\" name=\"Verisium Manager\">"] ++
     (runs.map (runLines extra_attrs attr_labels no_append_seed)).flatten ++
     ["</testsuite>"])

/-! ### Helper lemmas -/

/-- A state whose status resolves to `fail` cannot be labelled `completed`
(`completed` is hard-wired to `continue` in the resolver table). -/
theorem eqStr_completed_of_resolver_fail (cfg : Config) (state : Val)
    (h : _get_resolver cfg state = "fail") : state.eqStr "completed" = false := by
  cases state with
  | str s =>
      by_cases hs : s = "completed"
      · subst hs
        have hcompl : _get_resolver cfg (Val.str "completed") = "continue" := rfl
        rw [hcompl] at h
        exact absurd h (by decide)
      · simp [Val.eqStr]
        exact hs
  | int n => rfl
  | null => rfl

/-- Lemma: `resolverPhase` never touches the completion flags. -/
theorem resolverPhase_flags (cfg : Config) (st : WaiterState) (sid : String) (state : Val) :
    ((resolverPhase cfg st sid state).1).completed_last_check = st.completed_last_check ∧
    ((resolverPhase cfg st sid state).1).final_state = st.final_state := by
  simp only [resolverPhase, _check_all_done]
  repeat' split
  all_goals exact ⟨rfl, rfl⟩

/-- Lemma: `_check_all_done` never touches the completion flags. -/
theorem check_all_done_flags (st : WaiterState) (sid : String) :
    ((_check_all_done st sid).1).completed_last_check = st.completed_last_check ∧
    ((_check_all_done st sid).1).final_state = st.final_state := by
  simp only [_check_all_done]
  split <;> exact ⟨rfl, rfl⟩

/-- The rerun-detection flags written by one per-session step of the wait
loop are exactly one `observe` step of the standalone tracker — the resolver
block and `_check_all_done` never touch them. -/
theorem sessionStep_tracker_flags (cfg : Config) (st : WaiterState) (sid : String)
    (info : SessionInfo) :
    ((sessionStep cfg st sid info).1).completed_last_check =
      ((observe ⟨st.completed_last_check, st.final_state⟩ sid
          (info.running.getD (Val.int 0))
          (info.waiting.getD (Val.int 0))).1).completed_last_check
    ∧ ((sessionStep cfg st sid info).1).final_state =
      ((observe ⟨st.completed_last_check, st.final_state⟩ sid
          (info.running.getD (Val.int 0))
          (info.waiting.getD (Val.int 0))).1).final_state := by
  by_cases hz : ((info.running.getD (Val.int 0)).eqInt 0 &&
      (info.waiting.getD (Val.int 0)).eqInt 0) = true
  · by_cases hclc : st.completed_last_check sid = true
    · simp only [sessionStep, observe, hz, hclc, eq_self_iff_true, if_true]
      constructor
      · split
        · split
          · exact (check_all_done_flags _ _).1
          · exact ((resolverPhase_flags _ _ _ _).1).trans ((check_all_done_flags _ _).1)
        · exact (resolverPhase_flags _ _ _ _).1
      · split
        · split
          · exact (check_all_done_flags _ _).2
          · exact ((resolverPhase_flags _ _ _ _).2).trans ((check_all_done_flags _ _).2)
        · exact (resolverPhase_flags _ _ _ _).2
    · have hclc' : st.completed_last_check sid = false := by simpa using hclc
      simp only [sessionStep, observe, hz, hclc', eq_self_iff_true, if_true,
        Bool.false_eq_true, if_false]
      exact ⟨(resolverPhase_flags _ _ _ _).1, (resolverPhase_flags _ _ _ _).2⟩
  · have hz' : ((info.running.getD (Val.int 0)).eqInt 0 &&
        (info.waiting.getD (Val.int 0)).eqInt 0) = false := by simpa using hz
    simp only [sessionStep, observe, hz', Bool.false_eq_true, if_false]
    exact ⟨(resolverPhase_flags _ _ _ _).1, (resolverPhase_flags _ _ _ _).2⟩

/-- A sweep that ran off the end of its session list without a decision
composes: processing an extended list continues from the reached state. -/
theorem processSweep_append (cfg : Config) (fetch : String → FetchResult) :
    ∀ (l₁ : List String) (st st₁ : WaiterState) (l₂ : List String),
    processSweep cfg fetch st l₁ = (st₁, Decision.nodecision) →
    processSweep cfg fetch st (l₁ ++ l₂) = processSweep cfg fetch st₁ l₂ := by
  intro l₁
  induction l₁ with
  | nil =>
      intro st st₁ l₂ h
      simp only [processSweep] at h
      cases h
      simp
  | cons sid t ih =>
      intro st st₁ l₂ h
      cases hf : fetch sid with
      | vapiError =>
          simp only [processSweep, hf] at h ⊢
          exact ih st st₁ l₂ h
      | connError => simp [processSweep, hf] at h
      | ok oinfo =>
          cases oinfo with
          | none => simp [processSweep, hf] at h
          | some info =>
              simp only [processSweep, hf] at h ⊢
              rcases hs : sessionStep cfg st sid info with ⟨st', d⟩
              rw [hs] at h
              cases d with
              | nodecision => exact ih st' st₁ l₂ h
              | aborted => simp at h
              | buildFailed => simp at h
              | buildSuccess => simp at h

/-- Unfolding of one loop iteration when the timeout has not expired. -/
theorem waitLoop_cons_eq (cfg : Config) (st : WaiterState) (sw : SweepInput)
    (rest : List SweepInput)
    (ht : ¬(0 < cfg.session_timeout ∧ cfg.session_timeout < sw.elapsed)) :
    waitLoop cfg st (sw :: rest) =
      (match processSweep cfg sw.fetch st st.session_ids with
       | (st', Decision.buildFailed) => some (WaitResult.finished false st')
       | (st', Decision.buildSuccess) => some (WaitResult.finished true st')
       | (st', _) => waitLoop cfg st' rest) := by
  simp only [waitLoop]
  rw [if_neg ht]

/-- Adding two session records to the totals commutes. -/
theorem addInfo_comm (t : AggregatedStats) (x y : SessionInfo) :
    addInfo (addInfo t x) y = addInfo (addInfo t y) x := by
  simp only [addInfo, AggregatedStats.mk.injEq]
  omega

/-- Folding the totals over permuted record lists agrees. -/
theorem foldl_addInfo_perm {l₁ l₂ : List SessionInfo} (h : l₁.Perm l₂) :
    ∀ t, l₁.foldl addInfo t = l₂.foldl addInfo t := by
  induction h with
  | nil => intro t; rfl
  | cons x _ ih => intro t; simpa using ih (addInfo t x)
  | swap x y l => intro t; simp [List.foldl, addInfo_comm]
  | trans _ _ ih₁ ih₂ => intro t; rw [ih₁, ih₂]

/-- The tracker output over a whole observation sequence: an observation
confirms exactly when it is zero/zero and the previous observation (or the
inherited provisional flag, for the first one) was zero/zero as well. -/
theorem observeSeq_zip (sid : String) :
    ∀ (obs : List (Val × Val)) (st : TrackerState),
    observeSeq st sid obs =
      List.zipWith (fun a b => a && b)
        (st.completed_last_check sid :: obs.map isZeroObs) (obs.map isZeroObs) := by
  intro obs
  induction obs with
  | nil => intro st; rfl
  | cons p rest ih =>
      intro st
      rcases p with ⟨r, w⟩
      cases hz : isZeroObs (r, w) with
      | false =>
          have hz' : (r.eqInt 0 && w.eqInt 0) = false := hz
          simp only [observeSeq, observe, hz', Bool.false_eq_true, if_false, List.map_cons,
            List.zipWith_cons_cons]
          rw [ih]
          simp [updBool, hz]
      | true =>
          have hz' : (r.eqInt 0 && w.eqInt 0) = true := hz
          cases hc : st.completed_last_check sid with
          | false =>
              simp only [observeSeq, observe, hz', if_true, hc, Bool.false_eq_true, if_false,
                List.map_cons, List.zipWith_cons_cons]
              rw [ih]
              simp [updBool, hz, hc]
          | true =>
              simp only [observeSeq, observe, hz', if_true, hc, List.map_cons,
                List.zipWith_cons_cons]
              rw [ih]
              simp [hc, hz]

/-- Characters produced by escaping a single character: never a raw `<`,
`>`, quote or apostrophe. -/
theorem xmlEscapeChar_chars (x : Char) :
    ∀ c ∈ (xmlEscapeChar x).data, c ≠ '<' ∧ c ≠ '>' ∧ c.toNat ≠ 34 ∧ c.toNat ≠ 39 := by
  intro c hc
  unfold xmlEscapeChar at hc
  split at hc
  · rw [show ("&amp;").data = ['&', 'a', 'm', 'p', ';'] from rfl] at hc
    simp only [List.mem_cons, List.not_mem_nil, or_false] at hc
    rcases hc with rfl | rfl | rfl | rfl | rfl <;> decide
  · split at hc
    · rw [show ("&lt;").data = ['&', 'l', 't', ';'] from rfl] at hc
      simp only [List.mem_cons, List.not_mem_nil, or_false] at hc
      rcases hc with rfl | rfl | rfl | rfl <;> decide
    · split at hc
      · rw [show ("&gt;").data = ['&', 'g', 't', ';'] from rfl] at hc
        simp only [List.mem_cons, List.not_mem_nil, or_false] at hc
        rcases hc with rfl | rfl | rfl | rfl <;> decide
      · split at hc
        · rw [show ("&quot;").data = ['&', 'q', 'u', 'o', 't', ';'] from rfl] at hc
          simp only [List.mem_cons, List.not_mem_nil, or_false] at hc
          rcases hc with rfl | rfl | rfl | rfl | rfl | rfl <;> decide
        · split at hc
          · rw [show ("&apos;").data = ['&', 'a', 'p', 'o', 's', ';'] from rfl] at hc
            simp only [List.mem_cons, List.not_mem_nil, or_false] at hc
            rcases hc with rfl | rfl | rfl | rfl | rfl | rfl <;> decide
          · rename_i h1 h2 h3 h4 h5
            rw [show (String.singleton x).data = [x] from rfl] at hc
            simp only [List.mem_cons, List.not_mem_nil, or_false] at hc
            subst hc
            refine ⟨?_, ?_, ?_, ?_⟩
            · intro hx; subst hx; exact h2 rfl
            · intro hx; subst hx; exact h3 rfl
            · intro hx; exact h4 (by simpa using hx)
            · intro hx; exact h5 (by simpa using hx)

/-- Characters produced by the escape over a whole string: never a raw `<`,
`>`, quote or apostrophe. -/
theorem xmlEscapeList_chars :
    ∀ (cs : List Char), ∀ c ∈ (xmlEscapeList cs).toList,
      c ≠ '<' ∧ c ≠ '>' ∧ c.toNat ≠ 34 ∧ c.toNat ≠ 39 := by
  intro cs
  induction cs with
  | nil =>
      intro c hc
      rw [show xmlEscapeList [] = "" from rfl] at hc
      simp at hc
  | cons x rest ih =>
      intro c hc
      have hd : (xmlEscapeList (x :: rest)).toList =
          (xmlEscapeChar x).data ++ (xmlEscapeList rest).data := by
        show (xmlEscapeChar x ++ xmlEscapeList rest).data = _
        exact String.data_append _ _
      rw [hd] at hc
      rcases List.mem_append.mp hc with hc1 | hc2
      · exact xmlEscapeChar_chars x c hc1
      · exact ih c hc2

/-- Lemma: `Val.eqStr` holding pins the value down to that string. -/
theorem Val.eqStr_eq {v : Val} {s : String} (h : v.eqStr s = true) : v = Val.str s := by
  cases v with
  | str t =>
      have : t = s := by simpa [Val.eqStr] using h
      rw [this]
  | int n => simp [Val.eqStr] at h
  | null => simp [Val.eqStr] at h

/-! ### Concrete fixtures used by witnesses and counterexamples -/

/-- The default configuration (all resolver inputs at their action defaults;
`failed` resolves to `fail`). -/
def cfgD : Config := {}

/-- A snapshot in state `completed` with no running or waiting runs. -/
def infoC : SessionInfo :=
  { session_status := some (Val.str "completed")
    running := some (Val.int 0)
    waiting := some (Val.int 0) }

/-- A snapshot in state `failed` with no running or waiting runs. -/
def infoF : SessionInfo :=
  { session_status := some (Val.str "failed")
    running := some (Val.int 0)
    waiting := some (Val.int 0) }

/-! ### Claims -/

/-- C3: for every session id and observation sequence fed to the completion
tracker, confirmed-done is reported exactly on a zero/zero observation whose
immediately preceding observation was also zero/zero; the first zero/zero
observation never confirms; a non-zero observation resets both flags; and the
sequence `(0,0) → (1,0) → (0,0)` never confirms on the third call. -/
theorem completion_tracker_two_consecutive :
    (∀ (sid : String) (obs : List (Val × Val)),
      observeSeq initTracker sid obs =
        List.zipWith (fun a b => a && b) (false :: obs.map isZeroObs) (obs.map isZeroObs))
    ∧ (∀ (sid : String) (r w : Val) (rest : List (Val × Val)),
        (observeSeq initTracker sid ((r, w) :: rest)).head? = some false)
    ∧ (∀ (st : TrackerState) (sid : String) (r w : Val), isZeroObs (r, w) = false →
        (observe st sid r w).1.completed_last_check sid = false ∧
        (observe st sid r w).1.final_state sid = false)
    ∧ observeSeq initTracker "s"
        [(Val.int 0, Val.int 0), (Val.int 1, Val.int 0), (Val.int 0, Val.int 0)] =
        [false, false, false] := by
  refine ⟨?_, ?_, ?_, by decide⟩
  · intro sid obs
    simpa [initTracker] using observeSeq_zip sid obs initTracker
  · intro sid r w rest
    rw [observeSeq_zip sid ((r, w) :: rest) initTracker]
    simp [initTracker]
  · intro st sid r w h
    have h' : (r.eqInt 0 && w.eqInt 0) = false := h
    constructor <;> simp [observe, h', updBool]

/-- Witness for C3: a non-zero observation leaves both flags unset. -/
theorem completion_tracker_two_consecutive_witness :
    (observe initTracker "s" (Val.int 1) (Val.int 0)).1.completed_last_check "s" = false ∧
    (observe initTracker "s" (Val.int 1) (Val.int 0)).1.final_state "s" = false :=
  completion_tracker_two_consecutive.2.2.1 initTracker "s" (Val.int 1) (Val.int 0) (by decide)

/-- C8: the stats aggregation is order-independent — permuting the snapshot
collection leaves every total unchanged — and a missing or non-numeric field
contributes zero instead of aborting. -/
theorem stats_aggregation_order_independent :
    (∀ (l₁ l₂ : List SessionInfo), l₁.Perm l₂ →
      get_aggregated_stats l₁ = get_aggregated_stats l₂)
    ∧ (∀ v : Val, pyInt v = Option.none → _safe_int v = 0)
    ∧ (∀ info : SessionInfo, info.passed_runs = Option.none →
        (get_aggregated_stats [info]).passed = 0)
    ∧ (∀ (info : SessionInfo) (s : String), info.passed_runs = some (Val.str s) →
        pyIntOfString s = Option.none → (get_aggregated_stats [info]).passed = 0) := by
  refine ⟨?_, ?_, ?_, ?_⟩
  · intro l₁ l₂ h
    exact foldl_addInfo_perm h _
  · intro v h
    simp [_safe_int, h]
  · intro info h
    simp [get_aggregated_stats, addInfo, h, _safe_int, pyInt]
  · intro info s h1 h2
    simp [get_aggregated_stats, addInfo, h1, _safe_int, pyInt, h2]

/-- A snapshot with plain numeric counts. -/
def infoW1 : SessionInfo :=
  { passed_runs := some (Val.int 3), failed_runs := some (Val.int 1) }

/-- A snapshot whose `passed_runs` field is a non-numeric string. -/
def infoW2 : SessionInfo := { passed_runs := some (Val.str "oops") }

/-- Witness for C8 at concrete snapshots. -/
theorem stats_aggregation_order_independent_witness :
    get_aggregated_stats [infoW1, infoW2] = get_aggregated_stats [infoW2, infoW1] ∧
    _safe_int (Val.str "oops") = 0 :=
  ⟨stats_aggregation_order_independent.1 _ _ (List.Perm.swap infoW2 infoW1 []),
   stats_aggregation_order_independent.2.1 (Val.str "oops") (by decide)⟩

/-- C5: the timeout check halts the wait exactly when the configured timeout
is positive and the elapsed time strictly exceeds it — it is checked at the
top of the iteration, before any fetch of the sweep is consulted — and a
timeout of `0` never halts the wait. -/
theorem timeout_fires_iff (cfg : Config) :
    (∀ (st : WaiterState) (sw : SweepInput) (rest : List SweepInput),
      0 < cfg.session_timeout → cfg.session_timeout < sw.elapsed →
      waitLoop cfg st (sw :: rest) = some WaitResult.timedOut)
    ∧ (cfg.session_timeout = 0 →
        ∀ (st : WaiterState) (script : List SweepInput),
        waitLoop cfg st script ≠ some WaitResult.timedOut)
    ∧ (∀ (st : WaiterState) (script : List SweepInput),
        waitLoop cfg st script = some WaitResult.timedOut →
        0 < cfg.session_timeout ∧ ∃ sw ∈ script, cfg.session_timeout < sw.elapsed) := by
  refine ⟨?_, ?_, ?_⟩
  · intro st sw rest h1 h2
    simp only [waitLoop]
    rw [if_pos ⟨h1, h2⟩]
  · intro h0 st script
    induction script generalizing st with
    | nil => simp [waitLoop]
    | cons sw rest ih =>
        rw [waitLoop_cons_eq cfg st sw rest (by simp [h0])]
        rcases hp : processSweep cfg sw.fetch st st.session_ids with ⟨st', d⟩
        cases d with
        | nodecision => exact ih st'
        | aborted => exact ih st'
        | buildFailed => simp
        | buildSuccess => simp
  · intro st script
    induction script generalizing st with
    | nil => intro h; simp [waitLoop] at h
    | cons sw rest ih =>
        intro h
        by_cases hcond : 0 < cfg.session_timeout ∧ cfg.session_timeout < sw.elapsed
        · exact ⟨hcond.1, sw, List.mem_cons_self sw rest, hcond.2⟩
        · rw [waitLoop_cons_eq cfg st sw rest hcond] at h
          rcases hp : processSweep cfg sw.fetch st st.session_ids with ⟨st', d⟩
          rw [hp] at h
          cases d with
          | buildFailed => simp at h
          | buildSuccess => simp at h
          | nodecision =>
              rcases ih st' h with ⟨h1, sw', hmem, hlt⟩
              exact ⟨h1, sw', List.mem_cons_of_mem sw hmem, hlt⟩
          | aborted =>
              rcases ih st' h with ⟨h1, sw', hmem, hlt⟩
              exact ⟨h1, sw', List.mem_cons_of_mem sw hmem, hlt⟩

/-- A configuration with a ten-second session timeout. -/
def cfgT : Config := { session_timeout := 10 }

/-- Witness for C5: elapsed 11 > timeout 10 halts with the timeout exit,
whatever the sweep would have fetched. -/
theorem timeout_fires_iff_witness :
    waitLoop cfgT (initState ["x"]) [SweepInput.mk 11 (fun _ => FetchResult.connError)] =
      some WaitResult.timedOut :=
  (timeout_fires_iff cfgT).1 (initState ["x"])
    (SweepInput.mk 11 (fun _ => FetchResult.connError)) [] (by decide) (by decide)

/-- C4: a connection failure while fetching one session's status abandons the
remainder of that sweep (the sessions after it are never consulted and the
state reached so far is kept unchanged), and the wait merely moves on to the
next poll cycle — the error alone can never produce `success = false`. -/
theorem transport_error_abandons_sweep :
    ∀ (cfg : Config) (fetch : String → FetchResult) (st st₁ : WaiterState)
      (pre post : List String) (sid : String) (e : Int) (more : List SweepInput),
    processSweep cfg fetch st pre = (st₁, Decision.nodecision) →
    fetch sid = FetchResult.connError →
    processSweep cfg fetch st (pre ++ sid :: post) = (st₁, Decision.aborted)
    ∧ (st.session_ids = pre ++ sid :: post →
       ¬(0 < cfg.session_timeout ∧ cfg.session_timeout < e) →
       waitLoop cfg st (SweepInput.mk e fetch :: more) = waitLoop cfg st₁ more) := by
  intro cfg fetch st st₁ pre post sid e more hpre hf
  have habort : processSweep cfg fetch st (pre ++ sid :: post) = (st₁, Decision.aborted) := by
    rw [processSweep_append cfg fetch pre st st₁ (sid :: post) hpre]
    simp [processSweep, hf]
  refine ⟨habort, ?_⟩
  intro hids ht
  rw [waitLoop_cons_eq cfg st (SweepInput.mk e fetch) more ht]
  dsimp only
  rw [hids, habort]

/-- A fetch function that always hits a connection error. -/
def fetchConn : String → FetchResult := fun _ => FetchResult.connError

/-- Witness for C4: a connection error on the first session of the sweep
leaves the state untouched and the wait polling. -/
theorem transport_error_abandons_sweep_witness :
    processSweep cfgD fetchConn (initState ["a", "b"]) ["a", "b"] =
      (initState ["a", "b"], Decision.aborted)
    ∧ waitLoop cfgD (initState ["a", "b"]) [SweepInput.mk 0 fetchConn] =
        waitLoop cfgD (initState ["a", "b"]) [] := by
  have h := transport_error_abandons_sweep cfgD fetchConn (initState ["a", "b"])
    (initState ["a", "b"]) [] ["b"] "a" 0 [] rfl rfl
  exact ⟨h.1, h.2 rfl (by decide)⟩

/-- C7: an empty status record for a tracked session (the session was deleted
upstream) fails the wait on the spot — the rest of the sweep is never
consulted, no later poll happens, and the wait returns `success = false`. -/
theorem deleted_session_fails_wait :
    ∀ (cfg : Config) (fetch : String → FetchResult) (st st₁ : WaiterState)
      (pre post : List String) (sid : String) (e : Int) (more : List SweepInput),
    processSweep cfg fetch st pre = (st₁, Decision.nodecision) →
    fetch sid = FetchResult.ok Option.none →
    processSweep cfg fetch st (pre ++ sid :: post) = (st₁, Decision.buildFailed)
    ∧ (st.session_ids = pre ++ sid :: post →
       ¬(0 < cfg.session_timeout ∧ cfg.session_timeout < e) →
       waitLoop cfg st (SweepInput.mk e fetch :: more) =
         some (WaitResult.finished false st₁)) := by
  intro cfg fetch st st₁ pre post sid e more hpre hf
  have hfail : processSweep cfg fetch st (pre ++ sid :: post) = (st₁, Decision.buildFailed) := by
    rw [processSweep_append cfg fetch pre st st₁ (sid :: post) hpre]
    simp [processSweep, hf]
  refine ⟨hfail, ?_⟩
  intro hids ht
  rw [waitLoop_cons_eq cfg st (SweepInput.mk e fetch) more ht]
  dsimp only
  rw [hids, hfail]

/-- A fetch function that always returns the empty record. -/
def fetchDel : String → FetchResult := fun _ => FetchResult.ok Option.none

/-- Witness for C7: a deleted session ends the wait at once with failure. -/
theorem deleted_session_fails_wait_witness :
    processSweep cfgD fetchDel (initState ["a", "b"]) ["a", "b"] =
      (initState ["a", "b"], Decision.buildFailed)
    ∧ waitLoop cfgD (initState ["a", "b"]) [SweepInput.mk 0 fetchDel] =
        some (WaitResult.finished false (initState ["a", "b"])) := by
  have h := deleted_session_fails_wait cfgD fetchDel (initState ["a", "b"])
    (initState ["a", "b"]) [] ["b"] "a" 0 [] rfl rfl
  exact ⟨h.1, h.2 rfl (by decide)⟩

/-- Counterexample to C1 as stated: with the default `failed` resolver
(`fail`), a single session observed `completed` at zero/zero and then
`failed` at zero/zero makes the wait halt with `success = true` — the
confirmed-done `failed` session satisfies the all-done success condition even
though its resolver action is `fail`, instead of forcing `success = false`. -/
theorem failed_confirmed_fail_resolver_cex :
    cfgD.failed_resolver = "fail" ∧
    waitSuccess (wait cfgD ["s1"]
      [SweepInput.mk 0 (fun _ => FetchResult.ok (some infoC)),
       SweepInput.mk 0 (fun _ => FetchResult.ok (some infoF))]) = some true :=
  ⟨rfl, by decide⟩

/-- C1 (amended): a session observed in state `failed` whose zero/zero status
was already seen on the previous poll is eligible to satisfy the
all-sessions-confirmed-done success condition regardless of the configured
`failed` resolver — the confirmation branch runs before the resolver is
consulted; only when that confirmation does not complete the all-done set
does a `failed` resolver of `fail` halt the wait with `success = false`. -/
theorem failed_confirmed_all_done_amended :
    ∀ (cfg : Config) (fetch : String → FetchResult) (st : WaiterState)
      (sid : String) (rest : List String) (info : SessionInfo),
    fetch sid = FetchResult.ok (some info) →
    info.session_status.getD (Val.str "unknown") = Val.str "failed" →
    (info.running.getD (Val.int 0)).eqInt 0 = true →
    (info.waiting.getD (Val.int 0)).eqInt 0 = true →
    st.completed_last_check sid = true →
    (((st.remaining.erase sid).isEmpty = true →
        (processSweep cfg fetch st (sid :: rest)).2 = Decision.buildSuccess)
     ∧ ((st.remaining.erase sid).isEmpty = false → cfg.failed_resolver = "fail" →
        (processSweep cfg fetch st (sid :: rest)).2 = Decision.buildFailed)) := by
  intro cfg fetch st sid rest info hf hstate hr hw hclc
  constructor
  · intro hemp
    simp [processSweep, hf, sessionStep, hstate, hr, hw, hclc, _check_all_done, updBool, hemp,
      Val.eqStr]
  · intro hemp hfailres
    simp [processSweep, hf, sessionStep, hstate, hr, hw, hclc, _check_all_done, updBool, hemp,
      resolverPhase, Val.eqStr, _get_resolver, hfailres]

/-- A waiter mid-run: one session, provisional flag already set. -/
def stW1 : WaiterState :=
  { session_ids := ["a"], remaining := ["a"],
    session_names := fun _ => Option.none,
    completed_last_check := fun x => x == "a",
    final_state := fun _ => false,
    aggregated := fun _ => Option.none }

/-- A waiter mid-run: two sessions, first one provisionally done. -/
def stW2 : WaiterState :=
  { stW1 with session_ids := ["a", "b"], remaining := ["a", "b"] }

/-- Witness for amended C1: a confirmed `failed` session completes the
all-done set with success even under resolver `fail`; with another session
still pending, the `fail` resolver ends the sweep with a failure. -/
theorem failed_confirmed_all_done_amended_witness :
    (processSweep cfgD (fun _ => FetchResult.ok (some infoF)) stW1 ["a"]).2 =
      Decision.buildSuccess
    ∧ (processSweep cfgD (fun _ => FetchResult.ok (some infoF)) stW2 ["a"]).2 =
      Decision.buildFailed := by
  have h1 := failed_confirmed_all_done_amended cfgD (fun _ => FetchResult.ok (some infoF))
    stW1 "a" [] infoF rfl rfl (by decide) (by decide) (by decide)
  have h2 := failed_confirmed_all_done_amended cfgD (fun _ => FetchResult.ok (some infoF))
    stW2 "a" [] infoF rfl rfl (by decide) (by decide) (by decide)
  exact ⟨h1.1 (by decide), h2.2 (by decide) rfl⟩

/-- Counterexample to C2 as stated: sessions `B` (`completed`, confirmed) and
`A` (`failed`, resolver `fail`, confirmed zero/zero) make the wait halt with
`success = true`, not `success = false` — the confirmed-done branch preempts
the `fail` resolution when `A` completes the all-done set. -/
theorem fail_resolver_with_completed_session_cex :
    cfgD.failed_resolver = "fail" ∧
    waitSuccess (wait cfgD ["B", "A"]
      [SweepInput.mk 0 (fun _ => FetchResult.ok (some infoC)),
       SweepInput.mk 0 (fun sid =>
         if sid == "A" then FetchResult.ok (some infoF)
         else FetchResult.ok (some infoC))]) = some true :=
  ⟨rfl, by decide⟩

/-- C2 (amended): as soon as a session's state resolves to `fail`, the sweep
halts immediately — with `success = false`, unless that very observation is a
second-consecutive zero/zero poll of a `failed`-state session that completes
the all-confirmed-done set (in which case the wait reports success).  The
sessions after it in the sweep and the later polls are never consulted. -/
theorem fail_resolution_halts_immediately :
    ∀ (cfg : Config) (fetch : String → FetchResult) (st : WaiterState)
      (sid : String) (rest : List String) (info : SessionInfo),
    fetch sid = FetchResult.ok (some info) →
    _get_resolver cfg (info.session_status.getD (Val.str "unknown")) = "fail" →
    specialCaseFires st sid info = false →
    ((processSweep cfg fetch st (sid :: rest)).2 = Decision.buildFailed
     ∧ (∀ (e : Int) (more : List SweepInput),
        st.session_ids = sid :: rest →
        ¬(0 < cfg.session_timeout ∧ cfg.session_timeout < e) →
        waitSuccess (waitLoop cfg st (SweepInput.mk e fetch :: more)) = some false)) := by
  intro cfg fetch st sid rest info hf hres hspecial
  have hcompl : (info.session_status.getD (Val.str "unknown")).eqStr "completed" = false :=
    eqStr_completed_of_resolver_fail cfg _ hres
  have hmain : (processSweep cfg fetch st (sid :: rest)).2 = Decision.buildFailed := by
    by_cases hz : ((info.running.getD (Val.int 0)).eqInt 0 &&
        (info.waiting.getD (Val.int 0)).eqInt 0) = true
    · by_cases hclc : st.completed_last_check sid = true
      · by_cases hfl : (info.session_status.getD (Val.str "unknown")).eqStr "failed" = true
        · have hemp : (st.remaining.erase sid).isEmpty = false := by
            have hz12 : (info.running.getD (Val.int 0)).eqInt 0 = true ∧
                (info.waiting.getD (Val.int 0)).eqInt 0 = true := by simpa using hz
            simpa [specialCaseFires, hz12.1, hz12.2, hclc, hfl] using hspecial
          simp [processSweep, hf, sessionStep, hz, hclc, hfl, _check_all_done, updBool, hemp,
            resolverPhase, hcompl, hres]
        · simp [processSweep, hf, sessionStep, hz, hclc, hfl, _check_all_done, updBool,
            resolverPhase, hcompl, hres]
      · simp [processSweep, hf, sessionStep, hz, hclc, resolverPhase, hcompl, hres]
    · simp [processSweep, hf, sessionStep, hz, resolverPhase, hcompl, hres]
  refine ⟨hmain, ?_⟩
  intro e more hids ht
  rw [waitLoop_cons_eq cfg st (SweepInput.mk e fetch) more ht]
  dsimp only
  rw [hids]
  rcases hp : processSweep cfg fetch st (sid :: rest) with ⟨st', d⟩
  rw [hp] at hmain
  cases d with
  | nodecision => simp at hmain
  | aborted => simp at hmain
  | buildSuccess => simp at hmain
  | buildFailed => rfl

/-- A snapshot in state `failed` with one run still active. -/
def infoFA : SessionInfo :=
  { session_status := some (Val.str "failed")
    running := some (Val.int 1)
    waiting := some (Val.int 0) }

/-- Witness for amended C2: a `failed` session with an active run halts the
wait at once with `success = false`, whatever comes after it in the sweep. -/
theorem fail_resolution_halts_immediately_witness :
    (processSweep cfgD (fun _ => FetchResult.ok (some infoFA)) (initState ["a", "b"])
        ["a", "b"]).2 = Decision.buildFailed
    ∧ waitSuccess (waitLoop cfgD (initState ["a", "b"])
        [SweepInput.mk 0 (fun _ => FetchResult.ok (some infoFA))]) = some false := by
  have h := fail_resolution_halts_immediately cfgD (fun _ => FetchResult.ok (some infoFA))
    (initState ["a", "b"]) "a" ["b"] infoFA rfl rfl (by decide)
  exact ⟨h.1, h.2 0 [] rfl (by decide)⟩

/-- C6: per-run classification of the report generator — a run whose status
is outside `{failed, stopped, running, other, waiting}` (notably `passed`)
yields a single self-closing test case with no failure and no skipped body; a
`failed` run without a `first_failure_name` yields a failure element whose
message and type are the default `RUN_STILL_IN_PROGRESS`; a run in
`{stopped, running, other, waiting}` yields a skipped test case with no
failure body. -/
theorem report_status_classification :
    ∀ (run : RunRecord) (ea : List String) (al : List (String × String)) (nas : Bool),
    (((statusOf run).eqStr "failed" = false ∧ (statusOf run).eqStr "stopped" = false ∧
      (statusOf run).eqStr "running" = false ∧ (statusOf run).eqStr "other" = false ∧
      (statusOf run).eqStr "waiting" = false) →
      ∃ g n d, runLines ea al nas run = [testcaseOpen g n d ++ "/>"])
    ∧ (((statusOf run).eqStr "failed" = true ∧ run.get "first_failure_name" = Option.none) →
      ∃ g n d t, runLines ea al nas run =
        [testcaseOpen g n d ++ ">",
         failureLineHead "RUN_STILL_IN_PROGRESS" ++ t,
         "    </testcase>"])
    ∧ (((statusOf run).eqStr "stopped" = true ∨ (statusOf run).eqStr "running" = true ∨
        (statusOf run).eqStr "other" = true ∨ (statusOf run).eqStr "waiting" = true) →
      ∃ g n d, runLines ea al nas run =
        [testcaseOpen g n d ++ ">", "      <skipped />", "    </testcase>"]) := by
  intro run ea al nas
  refine ⟨?_, ?_, ?_⟩
  · rintro ⟨h1, h2, h3, h4, h5⟩
    simp only [runLines, h1, h2, h3, h4, h5, Bool.false_eq_true, if_false, Bool.or_self]
    exact ⟨_, _, _, rfl⟩
  · rintro ⟨h1, hffn⟩
    have hlit : _xml_safe (Val.str "RUN_STILL_IN_PROGRESS") = "RUN_STILL_IN_PROGRESS" := by
      decide
    simp only [runLines, h1, eq_self_iff_true, if_true, hffn, Option.getD_none, hlit]
    exact ⟨_, _, _, _, rfl⟩
  · intro h
    rcases h with h | h | h | h <;>
      (simp [runLines, Val.eqStr_eq h, Val.eqStr]; exact ⟨_, _, _, rfl⟩)

/-- A run that passed. -/
def runP : RunRecord :=
  { status := some (Val.str "passed"), test_name := some (Val.str "test_a")
    computed_seed := some (Val.str "7"), duration := some (Val.int 10) }

/-- A failed run with no failure name recorded. -/
def runF0 : RunRecord :=
  { status := some (Val.str "failed"), computed_seed := some (Val.str "42") }

/-- A run still executing. -/
def runR : RunRecord := { status := some (Val.str "running") }

/-- Witness for C6 at one passed, one failed and one running run. -/
theorem report_status_classification_witness :
    (∃ g n d, runLines [] [] false runP = [testcaseOpen g n d ++ "/>"])
    ∧ (∃ g n d t, runLines [] [] false runF0 =
        [testcaseOpen g n d ++ ">",
         failureLineHead "RUN_STILL_IN_PROGRESS" ++ t,
         "    </testcase>"])
    ∧ (∃ g n d, runLines [] [] false runR =
        [testcaseOpen g n d ++ ">", "      <skipped />", "    </testcase>"]) :=
  ⟨(report_status_classification runP [] [] false).1 (by decide),
   (report_status_classification runF0 [] [] false).2.1 ⟨by decide, rfl⟩,
   (report_status_classification runR [] [] false).2.2 (Or.inr (Or.inl (by decide)))⟩

/-- C9: a configured extra attribute whose stripped name is empty, contains a
space, or repeats a built-in field is silently omitted from the failure body;
every other attribute renders as a `label:` line with an indented value —
`NA` when the run lacks the attribute, and with `<__SEPARATOR__>` markers of
string values expanded into indented continuation lines. -/
theorem extra_attr_filtering :
    ∀ (run : RunRecord) (labels : List (String × String)) (attrs : List String) (a : String),
    (((pyStrip a).toList.isEmpty || (pyStrip a).toList.contains ' ' ||
        builtInAttrs.contains (pyStrip a)) = true →
      extraAttrPart run labels a = Option.none ∧
      _build_extra_attr_text run (a :: attrs) labels = _build_extra_attr_text run attrs labels)
    ∧ (((pyStrip a).toList.isEmpty || (pyStrip a).toList.contains ' ' ||
        builtInAttrs.contains (pyStrip a)) = false →
      (extraAttrPart run labels a =
          some (labelFor labels (pyStrip a) ++ ":\n    " ++
            _xml_safe (sepRender ((run.get (pyStrip a)).getD (Val.str "NA"))))
       ∧ (run.get (pyStrip a) = Option.none →
          extraAttrPart run labels a = some (labelFor labels (pyStrip a) ++ ":\n    NA"))
       ∧ (∀ s : String, run.get (pyStrip a) = some (Val.str s) →
          extraAttrPart run labels a =
            some (labelFor labels (pyStrip a) ++ ":\n    " ++
              _xml_safe (Val.str (pyReplace s "<__SEPARATOR__>" "\n    ")))))) := by
  intro run labels attrs a
  constructor
  · intro h
    have hnone : extraAttrPart run labels a = Option.none := by
      simp only [extraAttrPart]
      rw [h]
      simp
    refine ⟨hnone, ?_⟩
    cases attrs with
    | nil => simp [_build_extra_attr_text, hnone, String.intercalate]
    | cons b bs => simp [_build_extra_attr_text, hnone]
  · intro h
    refine ⟨?_, ?_, ?_⟩
    · simp only [extraAttrPart]
      rw [h]
      simp
    · intro hget
      have hna : _xml_safe (sepRender (Val.str "NA")) = "NA" := by decide
      simp only [extraAttrPart]
      rw [h]
      simp only [Bool.false_eq_true, if_false, hget, Option.getD_none, hna]
      rw [String.append_assoc]
      rfl
    · intro s hget
      simp only [extraAttrPart]
      rw [h]
      simp [hget, sepRender]

/-- A run carrying one extra attribute with a multi-value separator. -/
def runX : RunRecord :=
  { status := some (Val.str "failed"), extra := [("m", Val.str "a<__SEPARATOR__>b")] }

/-- Witness for C9: the built-in `test_name` is dropped, an honest attribute
(stripped from `" m "`) renders with its separator expanded. -/
theorem extra_attr_filtering_witness :
    extraAttrPart runX [] "test_name" = Option.none ∧
    extraAttrPart runX [] " m " =
      some (labelFor [] (pyStrip " m ") ++ ":\n    " ++
        _xml_safe (Val.str (pyReplace "a<__SEPARATOR__>b" "<__SEPARATOR__>" "\n    "))) :=
  ⟨((extra_attr_filtering runX [] [] "test_name").1 rfl).1,
   ((extra_attr_filtering runX [] [] " m ").2 rfl).2.2 "a<__SEPARATOR__>b" rfl⟩

/-- C10: report generation is total on malformed records — a missing or
unconvertible `duration` renders as `time="0"`, a missing or `None`
`test_name`, `test_group` or `computed_seed` renders as `NA`, escaped output
never contains a raw angle bracket, quote or apostrophe, and a non-empty run
list always produces a document. -/
theorem report_total_on_malformed :
    ∀ (run : RunRecord) (ea : List String) (al : List (String × String)) (nas : Bool),
    ((run.get "duration" = Option.none ∨
        ∃ v, run.get "duration" = some v ∧ pyInt v = Option.none) →
      durationOf run = 0 ∧
      ∃ g n t, (runLines ea al nas run).head? = some (testcaseOpen g n 0 ++ t))
    ∧ (∀ f ∈ ["test_name", "test_group", "computed_seed"],
        (run.get f = Option.none ∨ run.get f = some Val.null) →
        _xml_safe ((run.get f).getD (Val.str "NA")) = "NA")
    ∧ (∀ s : String, ∀ c ∈ (xmlEscapeStr s).toList,
        c ≠ '<' ∧ c ≠ '>' ∧ c.toNat ≠ 34 ∧ c.toNat ≠ 39)
    ∧ (∀ runs : List RunRecord, runs ≠ [] →
        (generate_junit_xml runs ea al nas).isSome = true) := by
  intro run ea al nas
  refine ⟨?_, ?_, ?_, ?_⟩
  · intro h
    have hd : durationOf run = 0 := by
      rcases h with h | ⟨v, hv, hpi⟩
      · simp [durationOf, h, pyInt]
      · simp [durationOf, hv, hpi]
    refine ⟨hd, ?_⟩
    by_cases h1 : (statusOf run).eqStr "failed" = true
    · simp only [runLines, h1, eq_self_iff_true, if_true, hd, List.head?_cons]
      exact ⟨_, _, _, rfl⟩
    · have h1' : (statusOf run).eqStr "failed" = false := by simpa using h1
      by_cases h2 : ((statusOf run).eqStr "stopped" || (statusOf run).eqStr "running" ||
          (statusOf run).eqStr "other" || (statusOf run).eqStr "waiting") = true
      · simp only [runLines, h1', Bool.false_eq_true, if_false, h2, eq_self_iff_true,
          if_true, hd, List.head?_cons]
        exact ⟨_, _, _, rfl⟩
      · have h2' : ((statusOf run).eqStr "stopped" || (statusOf run).eqStr "running" ||
            (statusOf run).eqStr "other" || (statusOf run).eqStr "waiting") = false := by
          simpa using h2
        simp only [runLines, h1', h2', Bool.false_eq_true, if_false, hd, List.head?_cons]
        exact ⟨_, _, _, rfl⟩
  · intro f hf hcase
    rcases hcase with h | h <;> rw [h] <;> decide
  · intro s
    exact xmlEscapeList_chars s.toList
  · intro runs h
    cases runs with
    | nil => exact absurd rfl h
    | cons r t => simp [generate_junit_xml]

/-- A running run whose duration is an unparseable string. -/
def runBad : RunRecord :=
  { status := some (Val.str "running"), duration := some (Val.str "soon") }

/-- Witness for C10: the malformed duration renders as zero, the absent test
name renders `NA`, and the document is produced. -/
theorem report_total_on_malformed_witness :
    (durationOf runBad = 0 ∧
      ∃ g n t, (runLines [] [] false runBad).head? = some (testcaseOpen g n 0 ++ t))
    ∧ _xml_safe ((runBad.get "test_name").getD (Val.str "NA")) = "NA"
    ∧ (generate_junit_xml [runBad] [] [] false).isSome = true :=
  ⟨(report_total_on_malformed runBad [] [] false).1
      (Or.inr ⟨Val.str "soon", rfl, by decide⟩),
   (report_total_on_malformed runBad [] [] false).2.1 "test_name" (by simp) (Or.inl rfl),
   (report_total_on_malformed runBad [] [] false).2.2.2 [runBad] (List.cons_ne_nil _ _)⟩

end VManager
